import Mathlib

/-!
Verification development for the instance lifecycle orchestrator of
bosh-init (`deployer/instance/manager.go`).

The manager is embedded shallowly: each fallible collaborator call
(VM manager, registry server readiness signal, stemcell promotion,
instance readiness wait, disk-pool lookup, disk deployer, job start,
instance delete) is an oracle value carried by an `Env` record, and the
manager's methods are pure functions of that record which additionally
return the ordered trace of collaborator events they trigger.  Go's
`bosherr.WrapError` error chaining is the inductive `GoError`; a Go
interface value that may be nil is an `Option`.
-/

namespace Bosh

/-- Errors in the style of bosherr: either a base message or a context
string wrapped around a cause (`bosherr.WrapError`). -/
inductive GoError where
  | base (msg : String)
  | wrap (ctx : String) (cause : GoError)
deriving DecidableEq

/-- Opaque handle to a cloud VM, as returned by the VM manager. -/
structure VM where
  cid : String
deriving DecidableEq

/-- Modelled from the spec: the Instance value constructed by
`NewInstance` (the instance type itself lives outside `manager.go`);
`JobName` and `ID` are its pure accessors. -/
structure Instance where
  jobName : String
  id : Int
  vm : VM
deriving DecidableEq

/-- `NewInstance` as invoked by the manager: binds a job identity to a
VM handle. -/
def NewInstance (jobName : String) (id : Int) (vm : VM) : Instance :=
  ⟨jobName, id, vm⟩

/-- `Instance.JobName()` accessor. -/
def Instance.JobName (i : Instance) : String := i.jobName

/-- `Instance.ID()` accessor. -/
def Instance.ID (i : Instance) : Int := i.id

/-- Deployment-level registry configuration (`bmdepl.Registry`):
username, password, host, port. -/
structure Registry where
  username : String := ""
  password : String := ""
  host : String := ""
  port : Int := 0
deriving DecidableEq

/-- Modelled from the spec: `Registry.IsEmpty()` (defined outside
`manager.go`) — the predicate meaning "no registry required for this
deployment", true exactly of the zero-valued registry. -/
def Registry.IsEmpty (r : Registry) : Bool :=
  r = { username := "", password := "", host := "", port := 0 }

/-- Deployment-level SSH tunnel configuration (`bmdepl.SSHTunnel`). -/
structure SSHTunnel where
  host : String := ""
  port : Int := 0
  user : String := ""
  password : String := ""
  privateKey : String := ""
deriving DecidableEq

/-- `bmsshtunnel.Options` as built inside `Create`. -/
structure SSHTunnelOptions where
  host : String
  port : Int
  user : String
  password : String
  privateKey : String
  localForwardPort : Int
  remoteForwardPort : Int
deriving DecidableEq

/-- Cloud stemcell collaborator surface used by the manager: `CID()`
(promotion success is an oracle in `Env`). -/
structure CloudStemcell where
  cid : String
deriving DecidableEq

/-- Extracted stemcell collaborator surface used by the manager:
`ApplySpec()` is opaque data forwarded to `StartJobs`. -/
structure ExtractedStemcell where
  applySpec : String
deriving DecidableEq

/-- Disk pool resolved from the deployment manifest; opaque to the
manager. -/
structure DiskPool where
  name : String := ""
deriving DecidableEq

/-- Deployment collaborator surface used by the manager:
`DiskPool(jobName)` lookup. -/
structure Deployment where
  diskPool : String → Except GoError DiskPool

/-- Collaborator events observable in a manager call, in the order the
manager triggers them. -/
inductive Event where
  | registryStart
  | registryStop
  | performStep (name : String)
  | vmCreate
  | promoteStemcell
  | waitUntilReady (opts : SSHTunnelOptions)
  | diskPoolLookup
  | diskDeploy
  | startJobs
deriving DecidableEq

/-- Oracle for every fallible collaborator call the manager makes:
each field is the outcome the corresponding collaborator would
produce.  `registrySignal` is the single value the background registry
start writes to the readiness channel (`none` = ready). -/
structure Env where
  registrySignal : Option GoError := none
  vmCreateResult : Except GoError VM := .ok ⟨""⟩
  promoteResult : Option GoError := none
  waitUntilReadyResult : Option GoError := none
  diskDeployResult : Option GoError := none
  startJobsResult : Option GoError := none
  findCurrentVM : VM := ⟨""⟩
  findCurrentFound : Bool := false
  findCurrentErr : Option GoError := none
  instanceDeleteResult : Int → Int → Instance → Option GoError := fun _ _ _ => none

/-- The step name formatted by `Create` for the tracked VM-creation
step. -/
def createStepName (jobName : String) (id : Int) (cloudStemcell : CloudStemcell) : String :=
  "Creating VM for instance \x27" ++ jobName ++ "/" ++ toString id ++
    "\x27 from stemcell \x27" ++ cloudStemcell.cid ++ "\x27"

/-- The portion of `manager.Create` after the registry block
(`manager.go` lines 109–158): the tracked VM-creation/promotion step,
instance construction, tunnel-options build, wait-until-ready,
disk-pool lookup, disk deploy, and job start.  Returns the (possibly
nil) instance, the (possibly nil) error, and the collaborator event
trace.  `PerformStep` is modelled from the spec (it lives outside
`manager.go`): it records the named step and propagates the work's
error unchanged. -/
def createAfterRegistry (env : Env) (jobName : String) (id : Int)
    (deployment : Deployment) (_extractedStemcell : ExtractedStemcell)
    (cloudStemcell : CloudStemcell) (registry : Registry)
    (sshTunnelConfig : SSHTunnel) :
    (Option Instance × Option GoError) × List Event :=
  let stepName := createStepName jobName id cloudStemcell
  match env.vmCreateResult with
  | .error e =>
      ((none, some (GoError.wrap "Creating VM" e)),
       [.performStep stepName, .vmCreate])
  | .ok vm =>
    match env.promoteResult with
    | some e =>
        ((none, some (GoError.wrap
            ("Promoting stemcell as current \x27" ++ cloudStemcell.cid ++ "\x27") e)),
         [.performStep stepName, .vmCreate, .promoteStemcell])
    | none =>
      let inst := NewInstance jobName id vm
      let opts : SSHTunnelOptions :=
        { host := sshTunnelConfig.host
          port := sshTunnelConfig.port
          user := sshTunnelConfig.user
          password := sshTunnelConfig.password
          privateKey := sshTunnelConfig.privateKey
          localForwardPort := registry.port
          remoteForwardPort := registry.port }
      let pre := [Event.performStep stepName, Event.vmCreate,
                  Event.promoteStemcell, Event.waitUntilReady opts]
      match env.waitUntilReadyResult with
      | some e =>
          ((some inst, some (GoError.wrap "Waiting until instance is ready" e)), pre)
      | none =>
        match deployment.diskPool jobName with
        | .error e =>
            ((some inst, some (GoError.wrap "Getting disk pool" e)),
             pre ++ [.diskPoolLookup])
        | .ok _pool =>
          match env.diskDeployResult with
          | some e =>
              ((some inst, some (GoError.wrap "Deploying disk" e)),
               pre ++ [.diskPoolLookup, .diskDeploy])
          | none =>
            match env.startJobsResult with
            | some e =>
                ((some inst, some e),
                 pre ++ [.diskPoolLookup, .diskDeploy, .startJobs])
            | none =>
                ((some inst, none),
                 pre ++ [.diskPoolLookup, .diskDeploy, .startJobs])

/-- `manager.Create`: when the registry is non-empty it starts the
registry server in the background, registers the deferred
`registryServer.Stop()` (which therefore runs last on every exit path
of the call), and blocks on the one-shot readiness channel; a signal
error aborts with wrap "Starting registry".  Then the rest of the
workflow (`createAfterRegistry`) runs. -/
def Create (env : Env) (jobName : String) (id : Int)
    (deployment : Deployment) (extractedStemcell : ExtractedStemcell)
    (cloudStemcell : CloudStemcell) (registry : Registry)
    (sshTunnelConfig : SSHTunnel) :
    (Option Instance × Option GoError) × List Event :=
  if registry.IsEmpty then
    createAfterRegistry env jobName id deployment extractedStemcell
      cloudStemcell registry sshTunnelConfig
  else
    match env.registrySignal with
    | some e =>
        ((none, some (GoError.wrap "Starting registry" e)),
         [.registryStart, .registryStop])
    | none =>
        let r := createAfterRegistry env jobName id deployment extractedStemcell
          cloudStemcell registry sshTunnelConfig
        (r.1, .registryStart :: r.2 ++ [.registryStop])

/-- `manager.FindCurrent`: asks the VM manager for the current VM; a
lookup error is wrapped with "Finding currently deployed instances";
not-found yields the empty list with no error; a found VM yields one
instance with job name "unknown" and id 0. -/
def FindCurrent (env : Env) : List Instance × Option GoError :=
  match env.findCurrentErr with
  | some e => ([], some (GoError.wrap "Finding currently deployed instances" e))
  | none =>
    if env.findCurrentFound then
      ([NewInstance "unknown" 0 env.findCurrentVM], none)
    else
      ([], none)

/-- The deletion loop of `manager.DeleteAll`: deletes instances in
order, stopping at the first failure with the identity-wrapped error.
Also returns the list of instances on which deletion was attempted. -/
def deleteAllLoop (del : Instance → Option GoError) :
    List Instance → Option GoError × List Instance
  | [] => (none, [])
  | i :: rest =>
    match del i with
    | some e =>
        (some (GoError.wrap
          ("Deleting existing instance \x27" ++ i.JobName ++ "/" ++
            toString i.ID ++ "\x27") e), [i])
    | none =>
        let r := deleteAllLoop del rest
        (r.1, i :: r.2)

/-- `manager.DeleteAll`: finds current instances (propagating a find
error unchanged) and deletes them sequentially via `deleteAllLoop`. -/
def DeleteAll (env : Env) (pingTimeout pingDelay : Int) :
    Option GoError × List Instance :=
  match FindCurrent env with
  | (_, some e) => (some e, [])
  | (instances, none) =>
      deleteAllLoop (env.instanceDeleteResult pingTimeout pingDelay) instances

/-- The registry branch of `Create` succeeded or was skipped: either
the registry is empty, or the readiness signal carried no error. -/
def RegistryOk (env : Env) (registry : Registry) : Prop :=
  registry.IsEmpty = false → env.registrySignal = none

section Helpers

variable (env : Env) (jobName : String) (id : Int) (deployment : Deployment)
variable (es : ExtractedStemcell) (cs : CloudStemcell) (registry : Registry)
variable (ssh : SSHTunnel)

/-- The post-registry workflow never triggers registry start/stop
events itself. -/
theorem createAfterRegistry_no_registry_events :
    Event.registryStart ∉
      (createAfterRegistry env jobName id deployment es cs registry ssh).2 ∧
    Event.registryStop ∉
      (createAfterRegistry env jobName id deployment es cs registry ssh).2 := by
  unfold createAfterRegistry
  rcases env.vmCreateResult with e | vm <;> simp
  rcases env.promoteResult with _ | e <;> simp
  rcases env.waitUntilReadyResult with _ | e <;> simp
  rcases deployment.diskPool jobName with e | p <;> simp
  rcases env.diskDeployResult with _ | e <;> simp
  rcases env.startJobsResult with _ | e <;> simp

/-- The post-registry workflow's first event is always the tracked
VM-creation step. -/
theorem createAfterRegistry_head :
    (createAfterRegistry env jobName id deployment es cs registry ssh).2.head? =
      some (Event.performStep (createStepName jobName id cs)) := by
  unfold createAfterRegistry
  rcases env.vmCreateResult with e | vm <;> simp
  rcases env.promoteResult with _ | e <;> simp
  rcases env.waitUntilReadyResult with _ | e <;> simp
  rcases deployment.diskPool jobName with e | p <;> simp
  rcases env.diskDeployResult with _ | e <;> simp
  rcases env.startJobsResult with _ | e <;> simp

/-- When the registry branch passes, `Create` is the post-registry
workflow with the registry start/stop events wrapped around it (or
exactly that workflow when the registry is empty). -/
theorem create_eq_of_registryOk (hreg : RegistryOk env registry) :
    Create env jobName id deployment es cs registry ssh =
      (if registry.IsEmpty then
        createAfterRegistry env jobName id deployment es cs registry ssh
      else
        ((createAfterRegistry env jobName id deployment es cs registry ssh).1,
         .registryStart ::
           (createAfterRegistry env jobName id deployment es cs registry ssh).2 ++
             [.registryStop])) := by
  unfold Create
  by_cases he : registry.IsEmpty
  · simp [he]
  · have hb : registry.IsEmpty = false := by
      simpa using he
    rw [hreg hb]

/-- The instance component of `Create` equals that of the post-registry
workflow whenever the registry branch passes. -/
theorem create_fst_of_registryOk (hreg : RegistryOk env registry) :
    (Create env jobName id deployment es cs registry ssh).1 =
      (createAfterRegistry env jobName id deployment es cs registry ssh).1 := by
  rw [create_eq_of_registryOk env jobName id deployment es cs registry ssh hreg]
  by_cases he : registry.IsEmpty <;> simp [he]

/-- Event membership in the `Create` trace reduces to membership in the
post-registry trace for non-registry events, when the branch passes. -/
theorem create_mem_of_registryOk (hreg : RegistryOk env registry) (ev : Event)
    (h1 : ev ≠ .registryStart) (h2 : ev ≠ .registryStop) :
    (ev ∈ (Create env jobName id deployment es cs registry ssh).2 ↔
      ev ∈ (createAfterRegistry env jobName id deployment es cs registry ssh).2) := by
  rw [create_eq_of_registryOk env jobName id deployment es cs registry ssh hreg]
  by_cases he : registry.IsEmpty <;> simp [he, h1, h2]

end Helpers

/-! Concrete fixtures used to instantiate the claim theorems. -/

/-- A concrete VM handle. -/
def vm0 : VM := ⟨"vm-123"⟩

/-- A concrete cloud stemcell. -/
def cs0 : CloudStemcell := ⟨"sc-cid"⟩

/-- A concrete extracted stemcell. -/
def es0 : ExtractedStemcell := ⟨"apply-spec"⟩

/-- A deployment whose disk-pool lookup always succeeds. -/
def dep0 : Deployment := ⟨fun _ => .ok ⟨"pool-1"⟩⟩

/-- A concrete SSH tunnel configuration. -/
def ssh0 : SSHTunnel :=
  { host := "10.0.0.5", port := 22, user := "vcap",
    password := "pw", privateKey := "key" }

/-- A concrete non-empty registry. -/
def reg1 : Registry :=
  { username := "admin", password := "secret", host := "127.0.0.1", port := 6868 }

/-- The empty registry. -/
def regEmpty : Registry := {}

/-- An environment in which every collaborator call succeeds. -/
def envOk : Env := { vmCreateResult := .ok vm0, findCurrentVM := vm0 }

/-- Claim C4: `FindCurrent` returns an empty sequence and no error when
no current VM exists; returns exactly one Instance with job name
"unknown" and id 0 when a VM is found; and wraps a lookup error with
"Finding currently deployed instances". -/
theorem findCurrent_cases (env : Env) :
    (env.findCurrentErr = none → env.findCurrentFound = false →
      FindCurrent env = ([], none)) ∧
    (env.findCurrentErr = none → env.findCurrentFound = true →
      FindCurrent env = ([NewInstance "unknown" 0 env.findCurrentVM], none)) ∧
    (∀ e, env.findCurrentErr = some e →
      FindCurrent env =
        ([], some (GoError.wrap "Finding currently deployed instances" e))) := by
  refine ⟨?_, ?_, ?_⟩ <;> intros <;> simp [FindCurrent, *]

/-- Witness for C4: with a found VM, `FindCurrent` yields the single
"unknown"/0 instance. -/
theorem findCurrent_cases_witness :
    FindCurrent { envOk with findCurrentFound := true } =
      ([NewInstance "unknown" 0 vm0], none) :=
  (findCurrent_cases { envOk with findCurrentFound := true }).2.1 rfl rfl

/-- Claim C5: `DeleteAll` succeeds with no error when zero instances are
discovered, delegates the discovered instances to the sequential
deletion loop, and that loop stops at the first failing deletion —
wrapping the error with the instance's identity — without attempting
the remaining instances. -/
theorem deleteAll_first_failure_stops (env : Env) (pingTimeout pingDelay : Int) :
    (env.findCurrentErr = none → env.findCurrentFound = false →
      DeleteAll env pingTimeout pingDelay = (none, [])) ∧
    (env.findCurrentErr = none →
      DeleteAll env pingTimeout pingDelay =
        deleteAllLoop (env.instanceDeleteResult pingTimeout pingDelay)
          (FindCurrent env).1) ∧
    (∀ (del : Instance → Option GoError) (l1 : List Instance) i l2 e,
      (∀ j ∈ l1, del j = none) → del i = some e →
      deleteAllLoop del (l1 ++ i :: l2) =
        (some (GoError.wrap
          ("Deleting existing instance \x27" ++ i.JobName ++ "/" ++
            toString i.ID ++ "\x27") e),
         l1 ++ [i])) := by
  refine ⟨?_, ?_, ?_⟩
  · intro h1 h2
    simp [DeleteAll, FindCurrent, h1, h2, deleteAllLoop]
  · intro h1
    unfold DeleteAll
    rcases hf : env.findCurrentFound <;> simp [FindCurrent, h1, hf]
  · intro del l1 i l2 e hok hfail
    induction l1 with
    | nil => simp [deleteAllLoop, hfail]
    | cons j t ih =>
        have hj : del j = none := hok j (by simp)
        have ht : ∀ k ∈ t, del k = none := fun k hk => hok k (by simp [hk])
        simp [deleteAllLoop, hj, ih ht]

/-- Witness for C5: a three-instance list whose middle deletion fails
stops after the second attempt with the identity-wrapped error. -/
theorem deleteAll_first_failure_stops_witness :
    deleteAllLoop (fun j => if j.id = 1 then some (GoError.base "boom") else none)
        ([⟨"a", 0, vm0⟩] ++ ⟨"b", 1, vm0⟩ :: [⟨"c", 2, vm0⟩]) =
      (some (GoError.wrap
        ("Deleting existing instance \x27" ++ Instance.JobName ⟨"b", 1, vm0⟩ ++
          "/" ++ toString (Instance.ID ⟨"b", 1, vm0⟩) ++ "\x27")
        (GoError.base "boom")),
       [⟨"a", 0, vm0⟩] ++ [⟨"b", 1, vm0⟩]) :=
  (deleteAll_first_failure_stops envOk 10 1).2.2
    (fun j => if j.id = 1 then some (GoError.base "boom") else none)
    [⟨"a", 0, vm0⟩] ⟨"b", 1, vm0⟩ [⟨"c", 2, vm0⟩] (GoError.base "boom")
    (by decide) (by decide)

/-- Claim C7: with a deployment whose registry is empty, `Create` never
starts a registry server, triggers no registry stop, proceeds directly
to the tracked VM-creation step, and its outcome does not depend on the
readiness signal (so it never blocks on it). -/
theorem create_empty_registry_skips (env : Env) (jobName : String) (id : Int)
    (deployment : Deployment) (es : ExtractedStemcell) (cs : CloudStemcell)
    (registry : Registry) (ssh : SSHTunnel)
    (he : registry.IsEmpty = true) :
    Create env jobName id deployment es cs registry ssh =
      createAfterRegistry env jobName id deployment es cs registry ssh ∧
    Event.registryStart ∉ (Create env jobName id deployment es cs registry ssh).2 ∧
    Event.registryStop ∉ (Create env jobName id deployment es cs registry ssh).2 ∧
    (Create env jobName id deployment es cs registry ssh).2.head? =
      some (Event.performStep (createStepName jobName id cs)) ∧
    (∀ s, Create { env with registrySignal := s } jobName id deployment es cs
        registry ssh =
      Create env jobName id deployment es cs registry ssh) := by
  have h1 : Create env jobName id deployment es cs registry ssh =
      createAfterRegistry env jobName id deployment es cs registry ssh := by
    simp [Create, he]
  refine ⟨h1, ?_, ?_, ?_, ?_⟩
  · rw [h1]
    exact (createAfterRegistry_no_registry_events env jobName id deployment
      es cs registry ssh).1
  · rw [h1]
    exact (createAfterRegistry_no_registry_events env jobName id deployment
      es cs registry ssh).2
  · rw [h1]
    exact createAfterRegistry_head env jobName id deployment es cs registry ssh
  · intro s
    have h2 : Create { env with registrySignal := s } jobName id deployment es cs
        registry ssh =
        createAfterRegistry { env with registrySignal := s } jobName id deployment
          es cs registry ssh := by
      simp [Create, he]
    rw [h1, h2]
    rfl

/-- Witness for C7: the empty registry skips the registry branch in a
fully concrete call. -/
theorem create_empty_registry_skips_witness :
    Create envOk "worker" 0 dep0 es0 cs0 regEmpty ssh0 =
      createAfterRegistry envOk "worker" 0 dep0 es0 cs0 regEmpty ssh0 ∧
    Event.registryStart ∉ (Create envOk "worker" 0 dep0 es0 cs0 regEmpty ssh0).2 ∧
    Event.registryStop ∉ (Create envOk "worker" 0 dep0 es0 cs0 regEmpty ssh0).2 :=
  ⟨(create_empty_registry_skips envOk "worker" 0 dep0 es0 cs0 regEmpty ssh0
      (by decide)).1,
   (create_empty_registry_skips envOk "worker" 0 dep0 es0 cs0 regEmpty ssh0
      (by decide)).2.1,
   (create_empty_registry_skips envOk "worker" 0 dep0 es0 cs0 regEmpty ssh0
      (by decide)).2.2.1⟩

/-- Claim C1: with a non-empty registry, `Create` starts the registry
first, the deferred registry stop is the last event and runs exactly
once on every exit path, and an error carried by the readiness signal
makes `Create` return it wrapped with "Starting registry" with no
further workflow events. -/
theorem create_registry_lifecycle (env : Env) (jobName : String) (id : Int)
    (deployment : Deployment) (es : ExtractedStemcell) (cs : CloudStemcell)
    (registry : Registry) (ssh : SSHTunnel)
    (hne : registry.IsEmpty = false) :
    (Create env jobName id deployment es cs registry ssh).2.head? =
      some Event.registryStart ∧
    (Create env jobName id deployment es cs registry ssh).2.getLast? =
      some Event.registryStop ∧
    (Create env jobName id deployment es cs registry ssh).2.count
      Event.registryStop = 1 ∧
    (∀ e, env.registrySignal = some e →
      (Create env jobName id deployment es cs registry ssh).1 =
        (none, some (GoError.wrap "Starting registry" e)) ∧
      (Create env jobName id deployment es cs registry ssh).2 =
        [Event.registryStart, Event.registryStop]) := by
  have hnost : Event.registryStop ∉
      (createAfterRegistry env jobName id deployment es cs registry ssh).2 :=
    (createAfterRegistry_no_registry_events env jobName id deployment
      es cs registry ssh).2
  unfold Create
  rw [hne]
  simp only [Bool.false_eq_true, if_false]
  rcases hs : env.registrySignal with _ | e
  · refine ⟨by simp, ?_, ?_, ?_⟩
    · rw [List.getLast?_append_of_ne_nil _ (by simp)]
      rfl
    · rw [List.count_append]
      simp [List.count_cons, List.count_eq_zero.mpr hnost]
    · intro e he
      simp at he
  · refine ⟨by simp, by simp, by simp, ?_⟩
    intro f hf
    injection hf with hef
    subst hef
    simp

/-- Witness for C1: a concrete non-empty-registry call whose readiness
signal carries an error returns the wrapped error after start and
stop. -/
theorem create_registry_lifecycle_witness :
    (Create { envOk with registrySignal := some (GoError.base "bind failed") }
        "worker" 0 dep0 es0 cs0 reg1 ssh0).2.head? = some Event.registryStart ∧
    (Create { envOk with registrySignal := some (GoError.base "bind failed") }
        "worker" 0 dep0 es0 cs0 reg1 ssh0).2.getLast? = some Event.registryStop ∧
    (Create { envOk with registrySignal := some (GoError.base "bind failed") }
        "worker" 0 dep0 es0 cs0 reg1 ssh0).2.count Event.registryStop = 1 ∧
    (Create { envOk with registrySignal := some (GoError.base "bind failed") }
        "worker" 0 dep0 es0 cs0 reg1 ssh0).1 =
      (none, some (GoError.wrap "Starting registry" (GoError.base "bind failed"))) ∧
    (Create { envOk with registrySignal := some (GoError.base "bind failed") }
        "worker" 0 dep0 es0 cs0 reg1 ssh0).2 =
      [Event.registryStart, Event.registryStop] := by
  have h := create_registry_lifecycle
    { envOk with registrySignal := some (GoError.base "bind failed") }
    "worker" 0 dep0 es0 cs0 reg1 ssh0 (by decide)
  exact ⟨h.1, h.2.1, h.2.2.1, (h.2.2.2 _ rfl).1, (h.2.2.2 _ rfl).2⟩

/-- Claim C2: once the VM-creation/stemcell-promotion step has
succeeded, the instance component of `Create`'s result is always the
constructed Instance — in particular every later failure (wait, disk
pool, disk deploy, start jobs) still returns it alongside the error. -/
theorem create_partial_instance (env : Env) (jobName : String) (id : Int)
    (deployment : Deployment) (es : ExtractedStemcell) (cs : CloudStemcell)
    (registry : Registry) (ssh : SSHTunnel)
    (hreg : RegistryOk env registry) (vm : VM)
    (hvm : env.vmCreateResult = .ok vm) (hpr : env.promoteResult = none) :
    (Create env jobName id deployment es cs registry ssh).1.1 =
      some (NewInstance jobName id vm) := by
  rw [create_fst_of_registryOk env jobName id deployment es cs registry ssh hreg]
  unfold createAfterRegistry
  rw [hvm, hpr]
  rcases env.waitUntilReadyResult with _ | e1 <;>
    rcases deployment.diskPool jobName with e2 | p <;>
      rcases env.diskDeployResult with _ | e3 <;>
        rcases env.startJobsResult with _ | e4 <;> simp

/-- Witness for C2: a concrete call failing at the disk-deploy step
still returns the constructed instance. -/
theorem create_partial_instance_witness :
    (Create { envOk with diskDeployResult := some (GoError.base "disk boom") }
        "worker" 0 dep0 es0 cs0 reg1 ssh0).1.1 =
      some (NewInstance "worker" 0 vm0) :=
  create_partial_instance
    { envOk with diskDeployResult := some (GoError.base "disk boom") }
    "worker" 0 dep0 es0 cs0 reg1 ssh0 (fun _ => rfl) vm0 rfl rfl

/-- Claim C9: every failure of `Create` before the Instance value is
constructed — a registry-signal error, a VM-creation failure, or a
stemcell-promotion failure — returns a nil (none) instance. -/
theorem create_nil_instance_before_construction (env : Env) (jobName : String)
    (id : Int) (deployment : Deployment) (es : ExtractedStemcell)
    (cs : CloudStemcell) (registry : Registry) (ssh : SSHTunnel) :
    (registry.IsEmpty = false → ∀ e, env.registrySignal = some e →
      (Create env jobName id deployment es cs registry ssh).1 =
        (none, some (GoError.wrap "Starting registry" e))) ∧
    (RegistryOk env registry → ∀ e, env.vmCreateResult = .error e →
      (Create env jobName id deployment es cs registry ssh).1.1 = none) ∧
    (RegistryOk env registry → ∀ vm e, env.vmCreateResult = .ok vm →
      env.promoteResult = some e →
      (Create env jobName id deployment es cs registry ssh).1.1 = none) := by
  refine ⟨?_, ?_, ?_⟩
  · intro hne e hs
    unfold Create
    rw [hne, hs]
    simp
  · intro hreg e hvm
    rw [create_fst_of_registryOk env jobName id deployment es cs registry ssh hreg]
    unfold createAfterRegistry
    rw [hvm]
  · intro hreg vm e hvm hpr
    rw [create_fst_of_registryOk env jobName id deployment es cs registry ssh hreg]
    unfold createAfterRegistry
    rw [hvm, hpr]

/-- Witness for C9: a concrete VM-creation failure yields a nil
instance. -/
theorem create_nil_instance_before_construction_witness :
    (Create { envOk with vmCreateResult := .error (GoError.base "capacity") }
        "worker" 0 dep0 es0 cs0 reg1 ssh0).1.1 = none :=
  (create_nil_instance_before_construction
    { envOk with vmCreateResult := .error (GoError.base "capacity") }
    "worker" 0 dep0 es0 cs0 reg1 ssh0).2.1 (fun _ => rfl)
    (GoError.base "capacity") rfl

/-- Claim C3: `Create` performs a tracked step with the exact name
"Creating VM for instance '<jobName>/<id>' from stemcell '<cid>'" that
runs VM creation and then stemcell promotion; a VM-creation failure is
wrapped with "Creating VM", a promotion failure with "Promoting
stemcell as current '<cid>'", and either failure aborts the call so
the disk and job steps are never attempted. -/
theorem create_vm_step (env : Env) (jobName : String) (id : Int)
    (deployment : Deployment) (es : ExtractedStemcell) (cs : CloudStemcell)
    (registry : Registry) (ssh : SSHTunnel)
    (hreg : RegistryOk env registry) :
    Event.performStep (createStepName jobName id cs) ∈
      (Create env jobName id deployment es cs registry ssh).2 ∧
    createStepName jobName id cs =
      "Creating VM for instance \x27" ++ jobName ++ "/" ++ toString id ++
        "\x27 from stemcell \x27" ++ cs.cid ++ "\x27" ∧
    (∀ e, env.vmCreateResult = .error e →
      (Create env jobName id deployment es cs registry ssh).1 =
        (none, some (GoError.wrap "Creating VM" e)) ∧
      (createAfterRegistry env jobName id deployment es cs registry ssh).2 =
        [Event.performStep (createStepName jobName id cs), Event.vmCreate] ∧
      Event.diskPoolLookup ∉ (Create env jobName id deployment es cs registry ssh).2 ∧
      Event.diskDeploy ∉ (Create env jobName id deployment es cs registry ssh).2 ∧
      Event.startJobs ∉ (Create env jobName id deployment es cs registry ssh).2) ∧
    (∀ vm e, env.vmCreateResult = .ok vm → env.promoteResult = some e →
      (Create env jobName id deployment es cs registry ssh).1 =
        (none, some (GoError.wrap
          ("Promoting stemcell as current \x27" ++ cs.cid ++ "\x27") e)) ∧
      (createAfterRegistry env jobName id deployment es cs registry ssh).2 =
        [Event.performStep (createStepName jobName id cs), Event.vmCreate,
         Event.promoteStemcell] ∧
      Event.diskPoolLookup ∉ (Create env jobName id deployment es cs registry ssh).2 ∧
      Event.diskDeploy ∉ (Create env jobName id deployment es cs registry ssh).2 ∧
      Event.startJobs ∉ (Create env jobName id deployment es cs registry ssh).2) := by
  refine ⟨?_, rfl, ?_, ?_⟩
  · rw [create_mem_of_registryOk env jobName id deployment es cs registry ssh hreg
      _ (by simp) (by simp)]
    exact List.mem_of_mem_head? (by
      rw [createAfterRegistry_head env jobName id deployment es cs registry ssh]
      rfl)
  · intro e hvm
    have htr : (createAfterRegistry env jobName id deployment es cs registry ssh).2 =
        [Event.performStep (createStepName jobName id cs), Event.vmCreate] := by
      unfold createAfterRegistry
      rw [hvm]
    refine ⟨?_, htr, ?_, ?_, ?_⟩
    · rw [create_fst_of_registryOk env jobName id deployment es cs registry ssh hreg]
      unfold createAfterRegistry
      rw [hvm]
    all_goals
      rw [create_mem_of_registryOk env jobName id deployment es cs registry ssh hreg
        _ (by simp) (by simp)]
      simp [htr]
  · intro vm e hvm hpr
    have htr : (createAfterRegistry env jobName id deployment es cs registry ssh).2 =
        [Event.performStep (createStepName jobName id cs), Event.vmCreate,
         Event.promoteStemcell] := by
      unfold createAfterRegistry
      rw [hvm, hpr]
    refine ⟨?_, htr, ?_, ?_, ?_⟩
    · rw [create_fst_of_registryOk env jobName id deployment es cs registry ssh hreg]
      unfold createAfterRegistry
      rw [hvm, hpr]
    all_goals
      rw [create_mem_of_registryOk env jobName id deployment es cs registry ssh hreg
        _ (by simp) (by simp)]
      simp [htr]

/-- Witness for C3: a VM-creation failure with message "insufficient
capacity" is wrapped with "Creating VM", the tracked step is present,
and the disk and job events are absent. -/
theorem create_vm_step_witness :
    (Create { envOk with vmCreateResult := .error (GoError.base "insufficient capacity") }
        "worker" 0 dep0 es0 cs0 reg1 ssh0).1 =
      (none, some (GoError.wrap "Creating VM" (GoError.base "insufficient capacity"))) ∧
    Event.diskPoolLookup ∉
      (Create { envOk with vmCreateResult := .error (GoError.base "insufficient capacity") }
        "worker" 0 dep0 es0 cs0 reg1 ssh0).2 ∧
    Event.startJobs ∉
      (Create { envOk with vmCreateResult := .error (GoError.base "insufficient capacity") }
        "worker" 0 dep0 es0 cs0 reg1 ssh0).2 ∧
    Event.performStep (createStepName "worker" 0 cs0) ∈
      (Create { envOk with vmCreateResult := .error (GoError.base "insufficient capacity") }
        "worker" 0 dep0 es0 cs0 reg1 ssh0).2 := by
  have h := create_vm_step
    { envOk with vmCreateResult := .error (GoError.base "insufficient capacity") }
    "worker" 0 dep0 es0 cs0 reg1 ssh0 (fun _ => rfl)
  have h3 := h.2.2.1 (GoError.base "insufficient capacity") rfl
  exact ⟨h3.1, h3.2.2.1, h3.2.2.2.2, h.1⟩

/-- Claim C6: after a successful VM step, a wait-until-ready failure is
wrapped with "Waiting until instance is ready", a disk-pool lookup
failure with "Getting disk pool", a disk-deploy failure with
"Deploying disk", and a start-jobs failure is returned unwrapped; each
failure aborts `Create` so that no later collaborator event occurs. -/
theorem create_later_failures (env : Env) (jobName : String) (id : Int)
    (deployment : Deployment) (es : ExtractedStemcell) (cs : CloudStemcell)
    (registry : Registry) (ssh : SSHTunnel)
    (hreg : RegistryOk env registry) (vm : VM)
    (hvm : env.vmCreateResult = .ok vm) (hpr : env.promoteResult = none) :
    (∀ e, env.waitUntilReadyResult = some e →
      (Create env jobName id deployment es cs registry ssh).1 =
        (some (NewInstance jobName id vm),
         some (GoError.wrap "Waiting until instance is ready" e)) ∧
      Event.diskPoolLookup ∉ (Create env jobName id deployment es cs registry ssh).2 ∧
      Event.diskDeploy ∉ (Create env jobName id deployment es cs registry ssh).2 ∧
      Event.startJobs ∉ (Create env jobName id deployment es cs registry ssh).2) ∧
    (env.waitUntilReadyResult = none →
      ∀ e, deployment.diskPool jobName = .error e →
      (Create env jobName id deployment es cs registry ssh).1 =
        (some (NewInstance jobName id vm),
         some (GoError.wrap "Getting disk pool" e)) ∧
      Event.diskDeploy ∉ (Create env jobName id deployment es cs registry ssh).2 ∧
      Event.startJobs ∉ (Create env jobName id deployment es cs registry ssh).2) ∧
    (env.waitUntilReadyResult = none →
      ∀ p e, deployment.diskPool jobName = .ok p →
      env.diskDeployResult = some e →
      (Create env jobName id deployment es cs registry ssh).1 =
        (some (NewInstance jobName id vm),
         some (GoError.wrap "Deploying disk" e)) ∧
      Event.startJobs ∉ (Create env jobName id deployment es cs registry ssh).2) ∧
    (env.waitUntilReadyResult = none →
      ∀ p e, deployment.diskPool jobName = .ok p →
      env.diskDeployResult = none → env.startJobsResult = some e →
      (Create env jobName id deployment es cs registry ssh).1 =
        (some (NewInstance jobName id vm), some e)) := by
  refine ⟨?_, ?_, ?_, ?_⟩
  · intro e hw
    refine ⟨?_, ?_, ?_, ?_⟩
    · rw [create_fst_of_registryOk env jobName id deployment es cs registry ssh hreg]
      unfold createAfterRegistry
      rw [hvm, hpr, hw]
    all_goals
      rw [create_mem_of_registryOk env jobName id deployment es cs registry ssh hreg
        _ (by simp) (by simp)]
      unfold createAfterRegistry
      rw [hvm, hpr, hw]
      simp
  · intro hw e hd
    refine ⟨?_, ?_, ?_⟩
    · rw [create_fst_of_registryOk env jobName id deployment es cs registry ssh hreg]
      unfold createAfterRegistry
      rw [hvm, hpr, hw, hd]
    all_goals
      rw [create_mem_of_registryOk env jobName id deployment es cs registry ssh hreg
        _ (by simp) (by simp)]
      unfold createAfterRegistry
      rw [hvm, hpr, hw, hd]
      simp
  · intro hw p e hd hdd
    refine ⟨?_, ?_⟩
    · rw [create_fst_of_registryOk env jobName id deployment es cs registry ssh hreg]
      unfold createAfterRegistry
      rw [hvm, hpr, hw, hd, hdd]
    · rw [create_mem_of_registryOk env jobName id deployment es cs registry ssh hreg
        _ (by simp) (by simp)]
      unfold createAfterRegistry
      rw [hvm, hpr, hw, hd, hdd]
      simp
  · intro hw p e hd hdd hsj
    rw [create_fst_of_registryOk env jobName id deployment es cs registry ssh hreg]
    unfold createAfterRegistry
    rw [hvm, hpr, hw, hd, hdd, hsj]

/-- Witness for C6: a concrete disk-deploy failure is wrapped with
"Deploying disk" and the start-jobs step is never attempted. -/
theorem create_later_failures_witness :
    (Create { envOk with diskDeployResult := some (GoError.base "no space") }
        "worker" 0 dep0 es0 cs0 reg1 ssh0).1 =
      (some (NewInstance "worker" 0 vm0),
       some (GoError.wrap "Deploying disk" (GoError.base "no space"))) ∧
    Event.startJobs ∉
      (Create { envOk with diskDeployResult := some (GoError.base "no space") }
        "worker" 0 dep0 es0 cs0 reg1 ssh0).2 :=
  (create_later_failures
    { envOk with diskDeployResult := some (GoError.base "no space") }
    "worker" 0 dep0 es0 cs0 reg1 ssh0 (fun _ => rfl) vm0 rfl rfl).2.2.1
    rfl ⟨"pool-1"⟩ (GoError.base "no space") rfl rfl

/-- After a successful VM step, the post-registry trace contains a
wait-until-ready event for exactly the options built from the SSH
tunnel config and the registry port. -/
theorem createAfterRegistry_wait_mem (env : Env) (jobName : String) (id : Int)
    (deployment : Deployment) (es : ExtractedStemcell) (cs : CloudStemcell)
    (registry : Registry) (ssh : SSHTunnel) (vm : VM)
    (hvm : env.vmCreateResult = .ok vm) (hpr : env.promoteResult = none)
    (o : SSHTunnelOptions) :
    (Event.waitUntilReady o ∈
        (createAfterRegistry env jobName id deployment es cs registry ssh).2 ↔
      o = { host := ssh.host, port := ssh.port, user := ssh.user,
            password := ssh.password, privateKey := ssh.privateKey,
            localForwardPort := registry.port,
            remoteForwardPort := registry.port }) := by
  unfold createAfterRegistry
  rw [hvm, hpr]
  rcases env.waitUntilReadyResult with _ | e1 <;>
    rcases deployment.diskPool jobName with e2 | p <;>
      rcases env.diskDeployResult with _ | e3 <;>
        rcases env.startJobsResult with _ | e4 <;>
          simp

/-- Claim C8: the SSHTunnelOptions passed to `WaitUntilReady` are built
from the tunnel config's host, port, user, password and private key,
with both forward ports set to the registry's port — and no other
options value is ever passed. -/
theorem create_tunnel_options (env : Env) (jobName : String) (id : Int)
    (deployment : Deployment) (es : ExtractedStemcell) (cs : CloudStemcell)
    (registry : Registry) (ssh : SSHTunnel)
    (hreg : RegistryOk env registry) (vm : VM)
    (hvm : env.vmCreateResult = .ok vm) (hpr : env.promoteResult = none) :
    Event.waitUntilReady
      { host := ssh.host, port := ssh.port, user := ssh.user,
        password := ssh.password, privateKey := ssh.privateKey,
        localForwardPort := registry.port, remoteForwardPort := registry.port } ∈
      (Create env jobName id deployment es cs registry ssh).2 ∧
    (∀ o, Event.waitUntilReady o ∈
        (Create env jobName id deployment es cs registry ssh).2 →
      o = { host := ssh.host, port := ssh.port, user := ssh.user,
            password := ssh.password, privateKey := ssh.privateKey,
            localForwardPort := registry.port,
            remoteForwardPort := registry.port }) := by
  constructor
  · rw [create_mem_of_registryOk env jobName id deployment es cs registry ssh hreg
      _ (by simp) (by simp)]
    rw [createAfterRegistry_wait_mem env jobName id deployment es cs registry ssh
      vm hvm hpr]
  · intro o ho
    rw [create_mem_of_registryOk env jobName id deployment es cs registry ssh hreg
      _ (by simp) (by simp)] at ho
    rw [createAfterRegistry_wait_mem env jobName id deployment es cs registry ssh
      vm hvm hpr] at ho
    exact ho

/-- Witness for C8: the concrete call passes the options built from the
fixture tunnel config with both forward ports equal to the registry
port 6868. -/
theorem create_tunnel_options_witness :
    Event.waitUntilReady
      { host := "10.0.0.5", port := 22, user := "vcap", password := "pw",
        privateKey := "key", localForwardPort := 6868, remoteForwardPort := 6868 } ∈
      (Create envOk "worker" 0 dep0 es0 cs0 reg1 ssh0).2 :=
  (create_tunnel_options envOk "worker" 0 dep0 es0 cs0 reg1 ssh0
    (fun _ => rfl) vm0 rfl rfl).1

/-- Claim C10: the forward ports come from `registry.Port`
unconditionally — with an empty registry, `WaitUntilReady` receives
options whose forward ports are the registry's zero-valued port
field. -/
theorem create_empty_registry_zero_ports (env : Env) (jobName : String)
    (id : Int) (deployment : Deployment) (es : ExtractedStemcell)
    (cs : CloudStemcell) (registry : Registry) (ssh : SSHTunnel)
    (he : registry.IsEmpty = true) (vm : VM)
    (hvm : env.vmCreateResult = .ok vm) (hpr : env.promoteResult = none) :
    registry.port = 0 ∧
    Event.waitUntilReady
      { host := ssh.host, port := ssh.port, user := ssh.user,
        password := ssh.password, privateKey := ssh.privateKey,
        localForwardPort := registry.port, remoteForwardPort := registry.port } ∈
      (Create env jobName id deployment es cs registry ssh).2 := by
  have hr : registry = { username := "", password := "", host := "", port := 0 } := by
    simpa [Registry.IsEmpty] using he
  have hreg : RegistryOk env registry := by
    intro hfalse
    rw [he] at hfalse
    exact absurd hfalse (by simp)
  constructor
  · rw [hr]
  · rw [create_mem_of_registryOk env jobName id deployment es cs registry ssh hreg
      _ (by simp) (by simp)]
    rw [createAfterRegistry_wait_mem env jobName id deployment es cs registry ssh
      vm hvm hpr]

/-- Witness for C10: with the empty registry, the concrete call passes
options whose forward ports are 0. -/
theorem create_empty_registry_zero_ports_witness :
    regEmpty.port = 0 ∧
    Event.waitUntilReady
      { host := "10.0.0.5", port := 22, user := "vcap", password := "pw",
        privateKey := "key", localForwardPort := 0, remoteForwardPort := 0 } ∈
      (Create envOk "worker" 0 dep0 es0 cs0 regEmpty ssh0).2 :=
  create_empty_registry_zero_ports envOk "worker" 0 dep0 es0 cs0 regEmpty ssh0
    (by decide) vm0 rfl rfl

end Bosh
